import Mathlib

/-!
Verification of the offline-sync core of the byteforth project-management app.

The embedded code comes from two source files:
  - `src/lib/offline.ts` : network monitor, sync engine, offline-aware facade;
  - storage module (`offlineStorage`) : key-value adapter, cache manager,
    mutation queue.

Modelling conventions:
  - JSON records are association lists `List (String × String)`; lookup takes
    the first matching key, so the JS object spread `\x7b ...a, ...b \x7d` is
    modelled by prepending `b`'s fields (`recSpread`).
  - `Date.now()` is an explicit `now : Nat` argument (epoch milliseconds);
    `new Date().toISOString()` is modelled as a rendering `isoOf` of that
    clock value; `Math.random()` is an explicit `rand : String` argument.
  - The persistent key-value store is a `Store α` value: an association list
    for the `cache_`-namespaced entries plus the value persisted under the
    `offline_queue` key (`none` when the key was never written).  Process
    restart keeps the `Store` value and discards only in-memory state, which
    models the durable platform store.
  - The remote data service (`dbHelpers`) is an external collaborator; the
    sync engine sees it as an oracle `ok : RemoteCall → Bool` deciding which
    remote calls succeed, and the facade receives the relevant remote
    endpoint as an `Except`-valued argument.
-/

namespace ByteForth

/-- A JSON-ish record: association list, first matching key wins on lookup. -/
abbrev Rec := List (String × String)

/-- Field lookup on a record (models JS property access `r.k`). -/
def recGet (r : Rec) (k : String) : Option String :=
  (r.find? (fun p => p.1 == k)).map (fun p => p.2)

/-- JS object spread: in the result of spreading `a` then `b`, the fields of
`b` win on lookup. -/
def recSpread (a b : Rec) : Rec := b ++ a

/-- Operation type union `'create' | 'update' | 'delete'` from
`offlineStorage.queueOperation`. -/
inductive OpType where
  | create
  | update
  | delete
deriving DecidableEq

/-- A persisted queue entry: the enqueued operation augmented with its
`timestamp` and assigned `id` (storage module, `queueOperation`). -/
structure QueuedOp where
  type : OpType
  table : String
  data : Rec
  id : String
  timestamp : Nat
deriving DecidableEq

/-- The argument of `queueOperation`: `\x7btype, table, data, id?\x7d`. -/
structure OpInput where
  type : OpType
  table : String
  data : Rec
  id : Option String
deriving DecidableEq

/-- A cache entry as written by `offlineStorage.cacheData`:
`\x7bdata, timestamp, ttl\x7d`. -/
structure CacheItem (α : Type) where
  data : α
  timestamp : Nat
  ttl : Nat
deriving DecidableEq

/-- The persistent key-value store, split by the two key families the core
uses: `cache_<key>` entries and the `offline_queue` list (`none` when that key
is absent). -/
structure Store (α : Type) where
  cache : List (String × CacheItem α)
  queue : Option (List QueuedOp)
deriving DecidableEq

/-- Store read at a key (adapter `getData` on a cache key). -/
def kvGet {α : Type} (c : List (String × CacheItem α)) (k : String) :
    Option (CacheItem α) :=
  (c.find? (fun p => p.1 == k)).map (fun p => p.2)

/-- Store write at a key, replacing any previous entry (adapter `storeData`). -/
def kvSet {α : Type} (c : List (String × CacheItem α)) (k : String)
    (v : CacheItem α) : List (String × CacheItem α) :=
  (k, v) :: c.filter (fun p => p.1 != k)

/-- Store deletion at a key (adapter `removeData`). -/
def kvRemove {α : Type} (c : List (String × CacheItem α)) (k : String) :
    List (String × CacheItem α) :=
  c.filter (fun p => p.1 != k)

/-- A store with nothing persisted. -/
def emptyStore (α : Type) : Store α := ⟨[], none⟩

/-- offlineStorage.cacheData: writes `\x7bdata, timestamp: now, ttl\x7d` under
the namespaced key `cache_<key>`; `ttl` defaults to one hour (3600000 ms). -/
def cacheData {α : Type} (s : Store α) (key : String) (data : α) (now : Nat)
    (ttl : Nat := 3600000) : Store α :=
  { s with cache := kvSet s.cache ("cache_" ++ key) ⟨data, now, ttl⟩ }

/-- offlineStorage.getCachedData: returns the cached data unless absent or
expired (`Date.now() - timestamp > ttl`); an expired entry is deleted from the
store (lazy eviction).  Returns the data read together with the store after
any eviction. -/
def getCachedData {α : Type} (s : Store α) (key : String) (now : Nat) :
    Option α × Store α :=
  match kvGet s.cache ("cache_" ++ key) with
  | none => (none, s)
  | some item =>
    if now - item.timestamp > item.ttl then
      (none, { s with cache := kvRemove s.cache ("cache_" ++ key) })
    else
      (some item.data, s)

/-- The generated fallback id `temp_<timestamp>_<random>` of
`queueOperation`. -/
def genTempId (now : Nat) (rand : String) : String :=
  "temp_" ++ toString now ++ "_" ++ rand

/-- Id assignment in `queueOperation`: `operation.id || temp_..` — the JS
`||` falls back on a missing id and also on the falsy empty string. -/
def assignOpId (oid : Option String) (now : Nat) (rand : String) : String :=
  match oid with
  | some i => if i == "" then genTempId now rand else i
  | none => genTempId now rand

/-- offlineStorage.queueOperation: reads the persisted list under
`offline_queue` (empty if absent), appends the operation augmented with
`timestamp: now` and the assigned id, and writes the whole list back. -/
def queueOperation {α : Type} (s : Store α) (op : OpInput) (now : Nat)
    (rand : String) : Store α :=
  { s with
    queue := some ((s.queue.getD []) ++
      [⟨op.type, op.table, op.data, assignOpId op.id now rand, now⟩]) }

/-- offlineStorage.getQueuedOperations: the persisted list, or empty. -/
def getQueuedOperations {α : Type} (s : Store α) : List QueuedOp :=
  s.queue.getD []

/-- offlineStorage.removeQueuedOperation: filters the persisted list to
exclude the given id and writes it back. -/
def removeQueuedOperation {α : Type} (s : Store α) (operationId : String) :
    Store α :=
  { s with
    queue := some ((s.queue.getD []).filter (fun op => op.id != operationId)) }

/-- offlineStorage.clearQueuedOperations: deletes the persisted list. -/
def clearQueuedOperations {α : Type} (s : Store α) : Store α :=
  { s with queue := none }

/-- A call against the remote data service (`dbHelpers`), as issued by
`processQueuedOperation`. -/
inductive RemoteCall where
  | createProject (data : Rec)
  | updateProject (id : String) (data : Rec)
  | deleteProject (id : String)
  | createMilestone (data : Rec)
  | updateMilestone (id : String) (data : Rec)
  | createOutsourcing (data : Rec)
  | updateOutsourcing (id : String) (data : Rec)
  | createPayment (data : Rec)
  | updatePayment (id : String) (data : Rec)
deriving DecidableEq

/-- The dispatch switch of `processQueuedOperation`: which remote call, if
any, a queued operation maps to.  `none` when no branch matches (the switch
falls through: unknown table, or a type with no branch under a known table),
in which case the function returns without calling the remote service. -/
def dispatchCall (op : QueuedOp) : Option RemoteCall :=
  if op.table == "projects" then
    match op.type with
    | .create => some (.createProject op.data)
    | .update => some (.updateProject op.id op.data)
    | .delete => some (.deleteProject op.id)
  else if op.table == "milestones" then
    match op.type with
    | .create => some (.createMilestone op.data)
    | .update => some (.updateMilestone op.id op.data)
    | .delete => none
  else if op.table == "outsourcing" then
    match op.type with
    | .create => some (.createOutsourcing op.data)
    | .update => some (.updateOutsourcing op.id op.data)
    | .delete => none
  else if op.table == "payments" then
    match op.type with
    | .create => some (.createPayment op.data)
    | .update => some (.updatePayment op.id op.data)
    | .delete => none
  else
    none

/-- Whether `processQueuedOperation` returns normally for `op` under the
remote oracle `ok`: a dispatched call must succeed; with no dispatched call
the function returns normally without any remote call. -/
def processSucceeds (ok : RemoteCall → Bool) (op : QueuedOp) : Bool :=
  match dispatchCall op with
  | none => true
  | some c => ok c

/-- The loop body of `syncOfflineData` over the snapshot of the queue: each
operation is processed; on success it is removed from the persisted queue by
id; on failure the store is left untouched and the pass continues.  The
second component is the sequence of remote calls issued (a failing call is
still issued). -/
def drainLoop {α : Type} (ok : RemoteCall → Bool) :
    List QueuedOp → Store α → Store α × List RemoteCall
  | [], s => (s, [])
  | op :: rest, s =>
    match dispatchCall op with
    | none =>
      let r := drainLoop ok rest (removeQueuedOperation s op.id)
      (r.1, r.2)
    | some c =>
      if ok c then
        let r := drainLoop ok rest (removeQueuedOperation s op.id)
        (r.1, c :: r.2)
      else
        let r := drainLoop ok rest s
        (r.1, c :: r.2)

/-- syncOfflineData: returns immediately when offline; otherwise reads the
queue snapshot and runs the drain loop over it. -/
def syncOfflineData {α : Type} (isOnline : Bool) (ok : RemoteCall → Bool)
    (s : Store α) : Store α × List RemoteCall :=
  if !isOnline then (s, [])
  else drainLoop ok (getQueuedOperations s) s

/-- The ids removed from the persisted queue by a drain over `ops`: the ids
of the operations whose processing succeeds. -/
def removedIds (ok : RemoteCall → Bool) (ops : List QueuedOp) : List String :=
  (ops.filter (processSucceeds ok)).map (fun op => op.id)

/-- Module-level initial network state: `let isOnline = true`. -/
def networkStartState : Bool := true

/-- getNetworkStatus: returns the current cached state. -/
def getNetworkStatus (isOnline : Bool) : Bool := isOnline

/-- The observable outcome of one platform connectivity event: the new cached
state, the listener invocations performed (listener, argument), and whether
`syncOfflineData` was triggered. -/
structure NetworkEventResult (L : Type) where
  isOnline : Bool
  calls : List (L × Bool)
  syncTriggered : Bool
deriving DecidableEq

/-- The connectivity-event handler of the network monitor: store the new
state; if it differs from the previous state, invoke every listener with the
new boolean and, when the new state is online, trigger the sync engine. -/
def handleNetworkEvent {L : Type} (wasOnline : Bool) (listeners : List L)
    (newState : Bool) : NetworkEventResult L :=
  if wasOnline != newState then
    ⟨newState, listeners.map (fun l => (l, newState)), newState⟩
  else
    ⟨newState, [], false⟩

/-- The new state derived from a mobile NetInfo event:
`state.isConnected ?? false`. -/
def mobileNewState (isConnected : Option Bool) : Bool :=
  isConnected.getD false

/-- The optimistic local record synthesized by the facade's offline create:
`\x7b...data, id: temp_<now>, created_at, updated_at\x7d`. -/
def optimisticRecord (data : Rec) (now : Nat) : Rec :=
  recSpread data
    [("id", "temp_" ++ toString now),
     ("created_at", isoOf now),
     ("updated_at", isoOf now)]
where
  /-- Model of `new Date().toISOString()` at clock value `now`. -/
  isoOf (now : Nat) : String := toString now

/-- The per-record rewrite of the facade's offline update:
`project.id === projectId ? \x7b...project, ...updates, updated_at\x7d :
project`. -/
def applyUpdates (updates : Rec) (now : Nat) (projectId : String) (p : Rec) :
    Rec :=
  if recGet p "id" == some projectId then
    recSpread (recSpread p updates) [("updated_at", optimisticRecord.isoOf now)]
  else
    p

namespace offlineAwareOperations

/-- offlineAwareOperations.createProject.  Online: the remote create is
authoritative (its failure propagates).  Offline: enqueue a Create operation,
synthesize the optimistic record, prepend it to the cached list for the
table, and return it. -/
def createProject (isOnline : Bool) (remoteCreate : Rec → Except Unit Rec)
    (s : Store (List Rec)) (projectData : Rec) (now : Nat) (rand : String) :
    Except Unit (Rec × Store (List Rec)) :=
  if isOnline then
    match remoteCreate projectData with
    | .ok r => .ok (r, s)
    | .error e => .error e
  else
    let s1 := queueOperation s ⟨.create, "projects", projectData, none⟩ now rand
    let tempProject := optimisticRecord projectData now
    let gc := getCachedData s1 "projects" now
    let cachedProjects := gc.1.getD []
    let s2 := cacheData gc.2 "projects" (tempProject :: cachedProjects) now
    .ok (tempProject, s2)

/-- offlineAwareOperations.updateProject.  Online: remote update directly.
Offline: enqueue an Update operation carrying the id, rewrite the matching
cached record with the merged updates and a refreshed `updated_at`, and
return the rewritten record. -/
def updateProject (isOnline : Bool)
    (remoteUpdate : String → Rec → Except Unit Rec) (s : Store (List Rec))
    (projectId : String) (updates : Rec) (now : Nat) (rand : String) :
    Except Unit (Option Rec × Store (List Rec)) :=
  if isOnline then
    match remoteUpdate projectId updates with
    | .ok r => .ok (some r, s)
    | .error e => .error e
  else
    let s1 := queueOperation s ⟨.update, "projects", updates, some projectId⟩
      now rand
    let gc := getCachedData s1 "projects" now
    let updatedProjects := (gc.1.getD []).map (applyUpdates updates now projectId)
    let s2 := cacheData gc.2 "projects" updatedProjects now
    .ok (updatedProjects.find? (fun p => recGet p "id" == some projectId), s2)

/-- offlineAwareOperations.getProjects.  Online: remote read; on success
refresh the cache and return the live result; on failure fall back to the
cache.  Offline: cached data directly, the remote endpoint untouched. -/
def getProjects (isOnline : Bool) (remoteGet : Except Unit (List Rec))
    (s : Store (List Rec)) (now : Nat) : List Rec × Store (List Rec) :=
  if isOnline then
    match remoteGet with
    | .ok projects => (projects, cacheData s "projects" projects now)
    | .error _ =>
      let gc := getCachedData s "projects" now
      (gc.1.getD [], gc.2)
  else
    let gc := getCachedData s "projects" now
    (gc.1.getD [], gc.2)

end offlineAwareOperations

/-! Concrete scenario data used by witnesses and counterexamples. -/

/-- A sequence of enqueue calls: each entry is the operation together with
the clock value and random string at the time of the call. -/
def enqueueAll {α : Type} (s : Store α) :
    List (OpInput × Nat × String) → Store α
  | [] => s
  | e :: rest => enqueueAll (queueOperation s e.1 e.2.1 e.2.2) rest

/-- The persisted entry produced by one enqueue call. -/
def augmentOp (e : OpInput × Nat × String) : QueuedOp :=
  ⟨e.1.type, e.1.table, e.1.data, assignOpId e.1.id e.2.1 e.2.2, e.2.1⟩

/-- Queue of three operations for the C1 scenario: distinct ids, all
dispatchable. -/
def op1C1 : QueuedOp := ⟨.create, "projects", [("name", "p1")], "a", 1⟩

def op2C1 : QueuedOp := ⟨.update, "projects", [("name", "p2")], "b", 2⟩

def op3C1 : QueuedOp := ⟨.create, "projects", [("name", "p3")], "c", 3⟩

def sC1 : Store Unit := ⟨[], some [op1C1, op2C1, op3C1]⟩

/-- Remote oracle for the C1 scenario: exactly operation 2's call fails. -/
def okC1 : RemoteCall → Bool :=
  fun c => c != .updateProject "b" [("name", "p2")]

/-- Two queued operations sharing the id "dup" (two offline updates to the
same entity); the oracle makes the first call succeed and the second fail. -/
def opDupA : QueuedOp := ⟨.update, "projects", [("f", "1")], "dup", 0⟩

def opDupB : QueuedOp := ⟨.update, "projects", [("f", "2")], "dup", 1⟩

def sDup : Store Unit := ⟨[], some [opDupA, opDupB]⟩

def okDup : RemoteCall → Bool :=
  fun c => c == .updateProject "dup" [("f", "1")]

/-- A store holding one cache entry with timestamp 100 and ttl 50 under key
`k`, for the C2 scenario. -/
def sC2 : Store Nat := ⟨[("cache_k", ⟨5, 100, 50⟩)], none⟩

/-- Store for the C3 scenario: a Create for temp id `temp_1` enqueued before
an Update targeting `temp_1`, with an unrelated operation for another entity
in between. -/
def sC3 : Store Unit :=
  queueOperation
    (queueOperation
      (queueOperation (emptyStore Unit)
        ⟨.create, "projects", [("name", "n")], some "temp_1"⟩ 1 "r1")
      ⟨.create, "payments", [("amt", "5")], some "pay_9"⟩ 2 "r2")
    ⟨.update, "projects", [("name", "m")], some "temp_1"⟩ 3 "r3"

/-- Cached project records and stores for the C4 and C7 scenarios. -/
def recA : Rec := [("id", "p1"), ("status", "open")]

def recB : Rec := [("id", "p2"), ("status", "open")]

def sC4 : Store (List Rec) :=
  ⟨[("cache_projects", ⟨[recA], 50, 3600000⟩)], some []⟩

def sC7 : Store (List Rec) :=
  ⟨[("cache_projects", ⟨[recA, recB], 50, 3600000⟩)], some []⟩

/-- A remote endpoint that always fails, for offline-path witnesses. -/
def failingCreate : Rec → Except Unit Rec := fun _ => .error ()

def failingUpdate : String → Rec → Except Unit Rec := fun _ _ => .error ()

/-- Three enqueue calls for the C6 scenario: a create without id, an update
and a delete with caller-supplied ids. -/
def inputsC6 : List (OpInput × Nat × String) :=
  [(⟨.create, "projects", [("n", "1")], none⟩, 10, "r1"),
   (⟨.update, "projects", [("n", "2")], some "p1"⟩, 11, "r2"),
   (⟨.delete, "projects", [], some "p2"⟩, 12, "r3")]

/-- A queued delete on milestones (no dispatch branch) next to an ordinary
operation, for the C9 scenario. -/
def opC9 : QueuedOp := ⟨.delete, "milestones", [], "m7", 5⟩

def sC9 : Store Unit :=
  ⟨[], some [opC9, ⟨.update, "projects", [("x", "y")], "p1", 6⟩]⟩

/-- Two offline updates to the same entity id "x": the first one's call
succeeds, the second one's fails. -/
def opW1 : QueuedOp := ⟨.update, "projects", [("f", "1")], "x", 0⟩

def opW2 : QueuedOp := ⟨.update, "projects", [("f", "2")], "x", 1⟩

def sW : Store Unit := ⟨[], some [opW1, opW2]⟩

def okW : RemoteCall → Bool :=
  fun c => c == .updateProject "x" [("f", "1")]

/-! Helper lemmas about the sync engine's drain loop. -/

theorem getQueuedOperations_remove {α : Type} (s : Store α) (oid : String) :
    getQueuedOperations (removeQueuedOperation s oid) =
      (getQueuedOperations s).filter (fun op => op.id != oid) := by
  simp [getQueuedOperations, removeQueuedOperation]

theorem removedIds_cons (ok : RemoteCall → Bool) (op : QueuedOp)
    (rest : List QueuedOp) :
    removedIds ok (op :: rest) =
      if processSucceeds ok op then op.id :: removedIds ok rest
      else removedIds ok rest := by
  simp only [removedIds, List.filter_cons]
  split <;> simp

theorem drainLoop_log {α : Type} (ok : RemoteCall → Bool)
    (ops : List QueuedOp) (s : Store α) :
    (drainLoop ok ops s).2 = ops.filterMap dispatchCall := by
  induction ops generalizing s with
  | nil => simp [drainLoop]
  | cons op rest ih =>
    cases h : dispatchCall op with
    | none => simp [drainLoop, h, ih, List.filterMap_cons]
    | some c =>
      cases hc : ok c <;>
        simp [drainLoop, h, hc, ih, List.filterMap_cons]

theorem drainLoop_queue {α : Type} (ok : RemoteCall → Bool)
    (ops : List QueuedOp) (s : Store α) :
    getQueuedOperations (drainLoop ok ops s).1 =
      (getQueuedOperations s).filter
        (fun x => !((removedIds ok ops).contains x.id)) := by
  induction ops generalizing s with
  | nil => simp [drainLoop, removedIds]
  | cons op rest ih =>
    have step : ∀ s1 : Store α, processSucceeds ok op = true →
        getQueuedOperations (drainLoop ok rest (removeQueuedOperation s1 op.id)).1 =
          (getQueuedOperations s1).filter
            (fun x => !((removedIds ok (op :: rest)).contains x.id)) := by
      intro s1 hps
      rw [ih, getQueuedOperations_remove, List.filter_filter]
      apply List.filter_congr
      intro x _
      rw [removedIds_cons, if_pos hps]
      simp only [List.contains_cons, Bool.not_or, Bool.and_comm]
      rfl
    cases h : dispatchCall op with
    | none =>
      have hps : processSucceeds ok op = true := by simp [processSucceeds, h]
      simpa only [drainLoop, h] using step s hps
    | some c =>
      cases hc : ok c with
      | true =>
        have hps : processSucceeds ok op = true := by
          simp [processSucceeds, h, hc]
        simpa only [drainLoop, h, hc] using step s hps
      | false =>
        have hps : processSucceeds ok op = false := by
          simp [processSucceeds, h, hc]
        simp only [drainLoop, h, hc, Bool.false_eq_true, if_false]
        rw [ih, removedIds_cons, if_neg (by simp [hps])]

theorem mem_removedIds_of_succeeds {ok : RemoteCall → Bool}
    {ops : List QueuedOp} {x : QueuedOp} (hx : x ∈ ops)
    (hps : processSucceeds ok x = true) :
    x.id ∈ removedIds ok ops := by
  simp only [removedIds, List.mem_map]
  exact ⟨x, List.mem_filter.mpr ⟨hx, hps⟩, rfl⟩

theorem contains_removedIds_of_nodup {ok : RemoteCall → Bool}
    {ops : List QueuedOp} (hnd : (ops.map QueuedOp.id).Nodup)
    {x : QueuedOp} (hx : x ∈ ops) :
    (removedIds ok ops).contains x.id = processSucceeds ok x := by
  cases hps : processSucceeds ok x with
  | true =>
    simpa using mem_removedIds_of_succeeds hx hps
  | false =>
    simp only [List.elem_eq_mem, decide_eq_false_iff_not]
    intro hmem
    simp only [removedIds, List.mem_map] at hmem
    obtain ⟨y, hy, hyid⟩ := hmem
    have hy2 := List.mem_filter.mp hy
    have : y = x := List.inj_on_of_nodup_map hnd hy2.1 hx hyid
    rw [this] at hy2
    rw [hy2.2] at hps
    exact Bool.true_eq_false.mp hps

theorem filterMap_length_of_isSome {γ δ : Type} (f : γ → Option δ)
    (l : List γ) (h : ∀ x ∈ l, (f x).isSome) :
    (l.filterMap f).length = l.length := by
  induction l with
  | nil => simp
  | cons a rest ih =>
    obtain ⟨b, hb⟩ := Option.isSome_iff_exists.mp (h a (by simp))
    rw [List.filterMap_cons, hb]
    simp only [List.length_cons]
    rw [ih (fun x hx => h x (by simp [hx]))]

theorem syncOfflineData_queue {α : Type} (ok : RemoteCall → Bool)
    (s : Store α) :
    getQueuedOperations (syncOfflineData true ok s).1 =
      (getQueuedOperations s).filter
        (fun x => !((removedIds ok (getQueuedOperations s)).contains x.id)) := by
  simp [syncOfflineData, drainLoop_queue]

/-! Claim theorems. -/

/-- C1 (amended): for every queue of operations with pairwise-distinct ids,
each of whose (table, type) combinations has a dispatch branch, one drain
pass issues each operation's remote call exactly once, in list order; every
operation whose remote call succeeds is removed from the persisted queue,
and every operation whose remote call fails is left in the queue, the
failure not aborting the pass. -/
theorem drain_removes_on_success {α : Type} (ok : RemoteCall → Bool)
    (s : Store α)
    (hids : ((getQueuedOperations s).map QueuedOp.id).Nodup)
    (hdisp : ∀ op ∈ getQueuedOperations s, (dispatchCall op).isSome) :
    (syncOfflineData true ok s).2 =
      (getQueuedOperations s).filterMap dispatchCall ∧
    ((syncOfflineData true ok s).2).length = (getQueuedOperations s).length ∧
    getQueuedOperations (syncOfflineData true ok s).1 =
      (getQueuedOperations s).filter (fun op => !(processSucceeds ok op)) := by
  have hlog : (syncOfflineData true ok s).2 =
      (getQueuedOperations s).filterMap dispatchCall := by
    simp [syncOfflineData, drainLoop_log]
  refine ⟨hlog, ?_, ?_⟩
  · rw [hlog]
    exact filterMap_length_of_isSome _ _ hdisp
  · rw [syncOfflineData_queue]
    apply List.filter_congr
    intro x hx
    rw [contains_removedIds_of_nodup hids hx]

/-- C1 witness: the 3-operation scenario — operation 2's remote call fails,
operations 1 and 3 succeed; after one drain the queue contains exactly
operation 2, and each of the three calls was issued once, in order. -/
theorem drain_removes_on_success_witness :
    ((getQueuedOperations sC1).map QueuedOp.id).Nodup ∧
    (∀ op ∈ getQueuedOperations sC1, (dispatchCall op).isSome) ∧
    okC1 (RemoteCall.updateProject "b" [("name", "p2")]) = false ∧
    (syncOfflineData true okC1 sC1).2 =
      [.createProject [("name", "p1")], .updateProject "b" [("name", "p2")],
       .createProject [("name", "p3")]] ∧
    getQueuedOperations (syncOfflineData true okC1 sC1).1 = [op2C1] := by
  refine ⟨by decide, by decide, by decide, ?_, ?_⟩
  · rw [(drain_removes_on_success okC1 sC1 (by decide) (by decide)).1]
    decide
  · rw [(drain_removes_on_success okC1 sC1 (by decide) (by decide)).2.2]
    decide

/-- C1 counterexample: with two queued operations sharing an id, the second
operation's remote call is issued and fails, yet after the drain the queue is
empty — the failed operation is not left in the queue, contrary to the claim
as stated for arbitrary queues. -/
theorem drain_removes_on_success_counterexample :
    opDupB ∈ getQueuedOperations sDup ∧
    dispatchCall opDupB = some (RemoteCall.updateProject "dup" [("f", "2")]) ∧
    okDup (RemoteCall.updateProject "dup" [("f", "2")]) = false ∧
    (syncOfflineData true okDup sDup).2 =
      [RemoteCall.updateProject "dup" [("f", "1")],
       RemoteCall.updateProject "dup" [("f", "2")]] ∧
    getQueuedOperations (syncOfflineData true okDup sDup).1 = [] := by
  decide

/-- C3: within a single drain pass the remote calls are issued strictly in
the order the operations appear in the persisted list; enqueueing appends, so
that list order is enqueue order; hence for any two dispatchable operations
with the earlier one preceding the later in the persisted list, the earlier
one's remote call is issued before the later one's. -/
theorem drain_preserves_enqueue_order {α : Type} (ok : RemoteCall → Bool)
    (s : Store α) (op : OpInput) (now : Nat) (rand : String)
    (l1 l2 l3 : List QueuedOp) (a b : QueuedOp) (ca cb : RemoteCall) :
    ((syncOfflineData true ok s).2 =
      (getQueuedOperations s).filterMap dispatchCall) ∧
    (getQueuedOperations (queueOperation s op now rand) =
      getQueuedOperations s ++
        [⟨op.type, op.table, op.data, assignOpId op.id now rand, now⟩]) ∧
    (getQueuedOperations s = l1 ++ a :: (l2 ++ b :: l3) →
      dispatchCall a = some ca → dispatchCall b = some cb →
      (syncOfflineData true ok s).2 =
        l1.filterMap dispatchCall ++
          ca :: (l2.filterMap dispatchCall ++ cb :: l3.filterMap dispatchCall)) := by
  refine ⟨by simp [syncOfflineData, drainLoop_log], ?_, ?_⟩
  · simp [queueOperation, getQueuedOperations]
  · intro hsnap ha hb
    have hlog : (syncOfflineData true ok s).2 =
        (getQueuedOperations s).filterMap dispatchCall := by
      simp [syncOfflineData, drainLoop_log]
    rw [hlog, hsnap]
    simp [List.filterMap_append, List.filterMap_cons, ha, hb]

/-- C3 witness: in the scenario store the persisted list is in enqueue
order, and the drain with an all-succeeding remote issues the create for
`temp_1` before the update targeting `temp_1`. -/
theorem drain_preserves_enqueue_order_witness :
    getQueuedOperations sC3 =
      [⟨.create, "projects", [("name", "n")], "temp_1", 1⟩,
       ⟨.create, "payments", [("amt", "5")], "pay_9", 2⟩,
       ⟨.update, "projects", [("name", "m")], "temp_1", 3⟩] ∧
    (syncOfflineData true (fun _ => true) sC3).2 =
      [.createProject [("name", "n")],
       .createPayment [("amt", "5")],
       .updateProject "temp_1" [("name", "m")]] := by
  refine ⟨by decide, ?_⟩
  have h := (drain_preserves_enqueue_order (fun _ => true) sC3
    ⟨.create, "projects", [], none⟩ 0 ""
    [] [⟨.create, "payments", [("amt", "5")], "pay_9", 2⟩] []
    ⟨.create, "projects", [("name", "n")], "temp_1", 1⟩
    ⟨.update, "projects", [("name", "m")], "temp_1", 3⟩
    (.createProject [("name", "n")])
    (.updateProject "temp_1" [("name", "m")])).2.2
  rw [h (by decide) (by decide) (by decide)]
  decide

/-- C9: a queued operation whose (table, type) combination has no dispatch
branch — delete on milestones, outsourcing or payments, or any type on an
unknown table — contributes no remote call to the drain, yet its processing
counts as success, so the drain removes it from the persisted queue: it is
silently discarded rather than retained. -/
theorem drain_discards_undispatched {α : Type} (ok : RemoteCall → Bool)
    (s : Store α) (op : QueuedOp) (hmem : op ∈ getQueuedOperations s)
    (hnone : dispatchCall op = none) :
    processSucceeds ok op = true ∧
    (syncOfflineData true ok s).2 =
      (getQueuedOperations s).filterMap dispatchCall ∧
    op ∉ getQueuedOperations (syncOfflineData true ok s).1 ∧
    (∀ d i ts, dispatchCall ⟨.delete, "milestones", d, i, ts⟩ = none ∧
      dispatchCall ⟨.delete, "outsourcing", d, i, ts⟩ = none ∧
      dispatchCall ⟨.delete, "payments", d, i, ts⟩ = none) ∧
    (∀ ty tb d i ts, tb ≠ "projects" → tb ≠ "milestones" →
      tb ≠ "outsourcing" → tb ≠ "payments" →
      dispatchCall ⟨ty, tb, d, i, ts⟩ = none) := by
  have hps : processSucceeds ok op = true := by simp [processSucceeds, hnone]
  refine ⟨hps, by simp [syncOfflineData, drainLoop_log], ?_, ?_, ?_⟩
  · intro hin
    rw [syncOfflineData_queue] at hin
    have h1 := List.of_mem_filter hin
    have h2 : op.id ∈ removedIds ok (getQueuedOperations s) :=
      mem_removedIds_of_succeeds hmem hps
    simp [h2] at h1
  · intro d i ts
    exact ⟨rfl, rfl, rfl⟩
  · intro ty tb d i ts h1 h2 h3 h4
    simp [dispatchCall, h1, h2, h3, h4]

/-- C9 witness: the delete-on-milestones operation is dispatched to no
remote call and disappears from the queue after a drain even though every
remote call fails; the failing project update is retained. -/
theorem drain_discards_undispatched_witness :
    opC9 ∈ getQueuedOperations sC9 ∧
    dispatchCall opC9 = none ∧
    opC9 ∉ getQueuedOperations (syncOfflineData true (fun _ => false) sC9).1 ∧
    getQueuedOperations (syncOfflineData true (fun _ => false) sC9).1 =
      [⟨.update, "projects", [("x", "y")], "p1", 6⟩] ∧
    (syncOfflineData true (fun _ => false) sC9).2 =
      [.updateProject "p1" [("x", "y")]] :=
  ⟨by decide, by decide,
    (drain_discards_undispatched (fun _ => false) sC9 opC9
      (by decide) (by decide)).2.2.1,
    by decide, by decide⟩

/-- C10: removeQueuedOperation removes every queued operation whose id equals
the given id; consequently, whenever some queued operation with a given id
replays successfully during a drain, every queued operation sharing that id —
in particular a later one whose own replay fails — is absent from the
persisted queue after the pass. -/
theorem removeQueuedOperation_removes_all {α : Type} (ok : RemoteCall → Bool)
    (s : Store α) (op1 op2 : QueuedOp) (c : RemoteCall)
    (h1 : op1 ∈ getQueuedOperations s) (_h2 : op2 ∈ getQueuedOperations s)
    (hid : op2.id = op1.id) (hc : dispatchCall op1 = some c)
    (hok : ok c = true) :
    (∀ oid, getQueuedOperations (removeQueuedOperation s oid) =
      (getQueuedOperations s).filter (fun op => op.id != oid)) ∧
    op2 ∉ getQueuedOperations (syncOfflineData true ok s).1 := by
  refine ⟨fun oid => getQueuedOperations_remove s oid, ?_⟩
  intro hin
  rw [syncOfflineData_queue] at hin
  have hmm := List.of_mem_filter hin
  have hps1 : processSucceeds ok op1 = true := by
    simp [processSucceeds, hc, hok]
  have hmem : op2.id ∈ removedIds ok (getQueuedOperations s) := by
    rw [hid]
    exact mem_removedIds_of_succeeds h1 hps1
  simp [hmem] at hmm

/-! Helper lemmas about the cache manager and the facade. -/

theorem kvGet_kvSet_self {α : Type} (c : List (String × CacheItem α))
    (k : String) (v : CacheItem α) : kvGet (kvSet c k v) k = some v := by
  simp [kvGet, kvSet]

theorem getCachedData_queue {α : Type} (s : Store α) (key : String)
    (now : Nat) : ((getCachedData s key now).2).queue = s.queue := by
  rcases h : kvGet s.cache ("cache_" ++ key) with _ | item
  · simp [getCachedData, h]
  · simp only [getCachedData, h]
    split <;> rfl

theorem getQueuedOperations_cacheData {α : Type} (s : Store α) (k : String)
    (d : α) (n t : Nat) :
    getQueuedOperations (cacheData s k d n t) = getQueuedOperations s := rfl

theorem getQueuedOperations_getCachedData {α : Type} (s : Store α)
    (k : String) (n : Nat) :
    getQueuedOperations (getCachedData s k n).2 = getQueuedOperations s := by
  simp only [getQueuedOperations]
  rw [getCachedData_queue]

theorem getQueuedOperations_queueOperation {α : Type} (s : Store α)
    (op : OpInput) (n : Nat) (r : String) :
    getQueuedOperations (queueOperation s op n r) =
      getQueuedOperations s ++
        [⟨op.type, op.table, op.data, assignOpId op.id n r, n⟩] := by
  simp [getQueuedOperations, queueOperation]

theorem getCachedData_fst_queueOperation {α : Type} (s : Store α)
    (op : OpInput) (n : Nat) (r : String) (key : String) (now : Nat) :
    (getCachedData (queueOperation s op n r) key now).1 =
      (getCachedData s key now).1 := by
  rcases h : kvGet s.cache ("cache_" ++ key) with _ | item <;>
    · simp only [getCachedData, queueOperation, h]
      try split <;> rfl

theorem getCachedData_cacheData_self {α : Type} (s : Store α) (key : String)
    (d : α) (now ttl later : Nat) (h : later - now ≤ ttl) :
    getCachedData (cacheData s key d now ttl) key later =
      (some d, cacheData s key d now ttl) := by
  simp only [getCachedData, cacheData, kvGet_kvSet_self]
  rw [if_neg (by omega)]

/-- C10 witness: the earlier update on id "x" replays successfully, the later
one's call fails, and the later one is nevertheless gone from the queue. -/
theorem removeQueuedOperation_removes_all_witness :
    opW1 ∈ getQueuedOperations sW ∧
    opW2 ∈ getQueuedOperations sW ∧
    opW2.id = opW1.id ∧
    dispatchCall opW1 = some (RemoteCall.updateProject "x" [("f", "1")]) ∧
    okW (RemoteCall.updateProject "x" [("f", "1")]) = true ∧
    okW (RemoteCall.updateProject "x" [("f", "2")]) = false ∧
    opW2 ∉ getQueuedOperations (syncOfflineData true okW sW).1 :=
  ⟨by decide, by decide, rfl, by decide, by decide, by decide,
    (removeQueuedOperation_removes_all okW sW opW1 opW2
      (RemoteCall.updateProject "x" [("f", "1")])
      (by decide) (by decide) rfl (by decide) (by decide)).2⟩

/-- C2: cacheData writes the entry with timestamp `now` and the given ttl
(defaulting to 3600000 ms) under the namespaced key `cache_<key>`;
getCachedData returns the data of a present entry while `now - timestamp`
does not exceed the ttl, returns null and deletes the entry once
`now - timestamp` exceeds the ttl, and returns null when no entry exists. -/
theorem cache_ttl {α : Type} (s : Store α) (key : String) (d : α)
    (item : CacheItem α) (now ttl : Nat) :
    (kvGet (cacheData s key d now ttl).cache ("cache_" ++ key) =
      some ⟨d, now, ttl⟩) ∧
    (cacheData s key d now = cacheData s key d now 3600000) ∧
    (kvGet s.cache ("cache_" ++ key) = some item →
      now - item.timestamp ≤ item.ttl →
      getCachedData s key now = (some item.data, s)) ∧
    (kvGet s.cache ("cache_" ++ key) = some item →
      item.ttl < now - item.timestamp →
      getCachedData s key now =
        (none, { s with cache := kvRemove s.cache ("cache_" ++ key) })) ∧
    (kvGet s.cache ("cache_" ++ key) = none →
      getCachedData s key now = (none, s)) := by
  refine ⟨?_, rfl, ?_, ?_, ?_⟩
  · simp [cacheData, kvGet_kvSet_self]
  · intro h hle
    simp only [getCachedData, h]
    rw [if_neg (by omega)]
  · intro h hgt
    simp only [getCachedData, h]
    rw [if_pos (by omega)]
  · intro h
    simp only [getCachedData, h]

/-- C2 witness: with an entry cached at timestamp 100 with ttl 50, a read at
149 (= timestamp + ttl - 1) returns the data with the store untouched, a
read at 151 (= timestamp + ttl + 1) returns null and evicts the entry, a
read of an absent key returns null, and a fresh cacheData write with the
default ttl lands under `cache_<key>` with the current timestamp. -/
theorem cache_ttl_witness :
    kvGet sC2.cache ("cache_" ++ "k") =
      some ⟨(5 : Nat), 100, 50⟩ ∧
    getCachedData sC2 "k" 149 = (some 5, sC2) ∧
    getCachedData sC2 "k" 151 =
      (none, { sC2 with cache := kvRemove sC2.cache ("cache_" ++ "k") }) ∧
    kvGet (cacheData sC2 "nk" 7 200).cache ("cache_" ++ "nk") =
      some ⟨7, 200, 3600000⟩ ∧
    kvGet sC2.cache ("cache_" ++ "absent") = none ∧
    getCachedData sC2 "absent" 100 = (none, sC2) :=
  ⟨by decide,
   (cache_ttl sC2 "k" 0 ⟨5, 100, 50⟩ 149 0).2.2.1 (by decide) (by decide),
   (cache_ttl sC2 "k" 0 ⟨5, 100, 50⟩ 151 0).2.2.2.1 (by decide) (by decide),
   (cache_ttl sC2 "nk" 7 ⟨5, 100, 50⟩ 200 3600000).1,
   by decide,
   (cache_ttl sC2 "absent" 0 ⟨5, 100, 50⟩ 100 0).2.2.2.2 (by decide)⟩

/-- C4: an offline create enqueues a Create operation, returns the optimistic
record — the input data extended with a `temp_`-prefixed id and current
created_at/updated_at timestamps — and prepends it to the cached list for the
table, so that a subsequent offline get (within the cache ttl) returns it at
the head of its result list. -/
theorem offline_create_optimistic (remoteCreate : Rec → Except Unit Rec)
    (remoteGet : Except Unit (List Rec)) (s : Store (List Rec))
    (projectData : Rec) (now later : Nat) (rand : String)
    (cached : List Rec)
    (hcached : (getCachedData s "projects" now).1.getD [] = cached)
    (hfresh : later - now ≤ 3600000) :
    ∃ s2 : Store (List Rec),
      offlineAwareOperations.createProject false remoteCreate s projectData
          now rand =
        .ok (optimisticRecord projectData now, s2) ∧
      getQueuedOperations s2 =
        getQueuedOperations s ++
          [⟨.create, "projects", projectData, genTempId now rand, now⟩] ∧
      recGet (optimisticRecord projectData now) "id" =
        some ("temp_" ++ toString now) ∧
      recGet (optimisticRecord projectData now) "created_at" =
        some (optimisticRecord.isoOf now) ∧
      recGet (optimisticRecord projectData now) "updated_at" =
        some (optimisticRecord.isoOf now) ∧
      (offlineAwareOperations.getProjects false remoteGet s2 later).1 =
        optimisticRecord projectData now :: cached := by
  refine ⟨_, rfl, ?_, rfl, rfl, rfl, ?_⟩
  · rw [getQueuedOperations_cacheData, getQueuedOperations_getCachedData,
      getQueuedOperations_queueOperation]
    rfl
  · simp only [offlineAwareOperations.getProjects, Bool.false_eq_true,
      if_false]
    rw [getCachedData_cacheData_self _ _ _ _ _ _ hfresh]
    simp only [Option.getD_some]
    rw [getCachedData_fst_queueOperation, hcached]

/-- C4 witness: offline create against a store caching one project; the
optimistic record carries the temp id and clock timestamps and heads the
subsequent offline read. -/
theorem offline_create_optimistic_witness :
    (getCachedData sC4 "projects" 60).1.getD [] = [recA] ∧
    (60 : Nat) - 60 ≤ 3600000 ∧
    (∃ s2 : Store (List Rec),
      offlineAwareOperations.createProject false failingCreate sC4
          [("name", "np")] 60 "r9" =
        .ok (optimisticRecord [("name", "np")] 60, s2) ∧
      getQueuedOperations s2 =
        getQueuedOperations sC4 ++
          [⟨.create, "projects", [("name", "np")], genTempId 60 "r9", 60⟩] ∧
      recGet (optimisticRecord [("name", "np")] 60) "id" =
        some ("temp_" ++ toString 60) ∧
      recGet (optimisticRecord [("name", "np")] 60) "created_at" =
        some (optimisticRecord.isoOf 60) ∧
      recGet (optimisticRecord [("name", "np")] 60) "updated_at" =
        some (optimisticRecord.isoOf 60) ∧
      (offlineAwareOperations.getProjects false (.error ()) s2 60).1 =
        optimisticRecord [("name", "np")] 60 :: [recA]) :=
  ⟨by decide, by decide,
   offline_create_optimistic failingCreate (.error ()) sC4 [("name", "np")]
     60 60 "r9" [recA] (by decide) (by decide)⟩

/-- C5: online with a successful remote read, get returns the remote data
and refreshes the cache for the table; online with a failing remote read, it
returns the cached data (or empty); offline it returns the cached data (or
empty) with the remote endpoint never consulted (the result is the same for
every remote endpoint value). -/
theorem read_switch (s : Store (List Rec)) (now : Nat) (projects : List Rec)
    (remoteGet : Except Unit (List Rec)) :
    (offlineAwareOperations.getProjects true (.ok projects) s now =
      (projects, cacheData s "projects" projects now)) ∧
    (offlineAwareOperations.getProjects true (.error ()) s now =
      ((getCachedData s "projects" now).1.getD [],
       (getCachedData s "projects" now).2)) ∧
    (offlineAwareOperations.getProjects false remoteGet s now =
      offlineAwareOperations.getProjects false (.error ()) s now) ∧
    (offlineAwareOperations.getProjects false remoteGet s now =
      ((getCachedData s "projects" now).1.getD [],
       (getCachedData s "projects" now).2)) :=
  ⟨rfl, rfl, rfl, rfl⟩

/-- C6: enqueueing a sequence of operations starting from an empty queue and
then listing from the persisted store yields exactly those operations in
enqueue order, each augmented with its timestamp and id — the caller-supplied
id when one is given (nonempty), otherwise the generated
`temp_<timestamp>_<random>`; listing with nothing enqueued yields the empty
list. -/
theorem queue_durability_round_trip {α : Type}
    (inputs : List (OpInput × Nat × String)) (i : String) (now : Nat)
    (rand : String) (hne : i ≠ "") :
    getQueuedOperations (enqueueAll (emptyStore α) inputs) =
      inputs.map augmentOp ∧
    getQueuedOperations (emptyStore α) = [] ∧
    assignOpId none now rand = "temp_" ++ toString now ++ "_" ++ rand ∧
    assignOpId (some i) now rand = i := by
  have key : ∀ (l : List (OpInput × Nat × String)) (s : Store α),
      getQueuedOperations (enqueueAll s l) =
        getQueuedOperations s ++ l.map augmentOp := by
    intro l
    induction l with
    | nil => intro s; simp [enqueueAll]
    | cons e rest ih =>
      intro s
      rw [enqueueAll, ih, getQueuedOperations_queueOperation]
      simp [augmentOp]
  refine ⟨by simpa using key inputs (emptyStore α), rfl, rfl, ?_⟩
  simp [assignOpId, hne]

/-- C6 witness: three enqueues (one without id, two with ids) from the empty
queue; listing yields the three augmented operations in order. -/
theorem queue_durability_round_trip_witness :
    getQueuedOperations (enqueueAll (emptyStore Unit) inputsC6) =
      [⟨.create, "projects", [("n", "1")], "temp_10_r1", 10⟩,
       ⟨.update, "projects", [("n", "2")], "p1", 11⟩,
       ⟨.delete, "projects", [], "p2", 12⟩] ∧
    getQueuedOperations (emptyStore Unit) = [] ∧
    assignOpId (some "p1") 11 "r2" = "p1" := by
  have h := queue_durability_round_trip (α := Unit) inputsC6 "p1" 11 "r2"
    (by decide)
  refine ⟨?_, h.2.1, h.2.2.2⟩
  rw [h.1]
  decide

/-- C7: an offline update enqueues an Update operation keyed by the (real,
nonempty) id, and rewrites the cached list for the table by replacing each
record whose id matches with the merge of itself and the updates plus a
refreshed updated_at, leaving every non-matching record unchanged. -/
theorem offline_update_rewrites (remoteUpdate : String → Rec → Except Unit Rec)
    (s : Store (List Rec)) (projectId : String) (updates : Rec) (now : Nat)
    (rand : String) (cached : List Rec) (hid : projectId ≠ "")
    (hcached : (getCachedData s "projects" now).1.getD [] = cached) :
    ∃ s2 : Store (List Rec),
      offlineAwareOperations.updateProject false remoteUpdate s projectId
          updates now rand =
        .ok ((cached.map (applyUpdates updates now projectId)).find?
          (fun p => recGet p "id" == some projectId), s2) ∧
      getQueuedOperations s2 =
        getQueuedOperations s ++
          [⟨.update, "projects", updates, projectId, now⟩] ∧
      kvGet s2.cache ("cache_" ++ "projects") =
        some ⟨cached.map (applyUpdates updates now projectId), now, 3600000⟩ ∧
      (∀ p, recGet p "id" = some projectId →
        applyUpdates updates now projectId p =
          recSpread (recSpread p updates)
            [("updated_at", optimisticRecord.isoOf now)]) ∧
      (∀ p, recGet p "id" ≠ some projectId →
        applyUpdates updates now projectId p = p) := by
  have hfst := getCachedData_fst_queueOperation s
    ⟨.update, "projects", updates, some projectId⟩ now rand "projects" now
  refine ⟨cacheData
      (getCachedData (queueOperation s
        ⟨.update, "projects", updates, some projectId⟩ now rand)
        "projects" now).2
      "projects"
      (((getCachedData (queueOperation s
          ⟨.update, "projects", updates, some projectId⟩ now rand)
          "projects" now).1.getD []).map (applyUpdates updates now projectId))
      now, ?_, ?_, ?_, ?_, ?_⟩
  · simp only [offlineAwareOperations.updateProject, Bool.false_eq_true,
      if_false]
    rw [hfst, hcached]
  · rw [getQueuedOperations_cacheData, getQueuedOperations_getCachedData,
      getQueuedOperations_queueOperation]
    simp [assignOpId, hid]
  · simp only [cacheData]
    rw [kvGet_kvSet_self, hfst, hcached]
  · intro p hp
    simp [applyUpdates, hp]
  · intro p hp
    rw [applyUpdates, if_neg (by simp [hp])]

/-- C7 witness: an offline update to id "p1" against a store caching two
projects; the matching record is merged and gets a refreshed updated_at, the
other record is untouched, and the Update operation is queued under "p1". -/
theorem offline_update_rewrites_witness :
    ("p1" : String) ≠ "" ∧
    (getCachedData sC7 "projects" 60).1.getD [] = [recA, recB] ∧
    (∃ s2 : Store (List Rec),
      offlineAwareOperations.updateProject false failingUpdate sC7 "p1"
          [("status", "done")] 60 "r" =
        .ok (([recA, recB].map (applyUpdates [("status", "done")] 60 "p1")).find?
          (fun p => recGet p "id" == some "p1"), s2) ∧
      getQueuedOperations s2 =
        getQueuedOperations sC7 ++
          [⟨.update, "projects", [("status", "done")], "p1", 60⟩] ∧
      kvGet s2.cache ("cache_" ++ "projects") =
        some ⟨[recA, recB].map (applyUpdates [("status", "done")] 60 "p1"),
          60, 3600000⟩ ∧
      (∀ p, recGet p "id" = some "p1" →
        applyUpdates [("status", "done")] 60 "p1" p =
          recSpread (recSpread p [("status", "done")])
            [("updated_at", optimisticRecord.isoOf 60)]) ∧
      (∀ p, recGet p "id" ≠ some "p1" →
        applyUpdates [("status", "done")] 60 "p1" p = p)) :=
  ⟨by decide, by decide,
   offline_update_rewrites failingUpdate sC7 "p1" [("status", "done")] 60 "r"
     [recA, recB] (by decide) (by decide)⟩

/-- C8: before any platform event the monitor's state is online (true), and
getStatus returns it; on a platform connectivity event, if the new state
differs from the previous one every subscriber is invoked with the new
boolean and the sync engine is triggered exactly when the new state is
online; if the new state equals the previous one, no subscriber is invoked
and no drain is triggered. -/
theorem network_monitor_transitions {L : Type} (wasOnline newState : Bool)
    (listeners : List L) :
    networkStartState = true ∧
    getNetworkStatus networkStartState = true ∧
    (wasOnline ≠ newState →
      handleNetworkEvent wasOnline listeners newState =
        ⟨newState, listeners.map (fun l => (l, newState)), newState⟩) ∧
    (wasOnline = newState →
      handleNetworkEvent wasOnline listeners newState =
        ⟨newState, [], false⟩) := by
  refine ⟨rfl, rfl, ?_, ?_⟩
  · intro h
    cases wasOnline <;> cases newState <;> simp_all [handleNetworkEvent]
  · intro h
    cases wasOnline <;> cases newState <;> simp_all [handleNetworkEvent]

/-- C8 witness: with two subscribers, an online-to-offline event notifies
both with false and triggers no drain; an offline-to-online event notifies
both with true and triggers the drain; a repeated online report notifies
nobody and triggers nothing. -/
theorem network_monitor_transitions_witness :
    getNetworkStatus networkStartState = true ∧
    handleNetworkEvent true ["a", "b"] false =
      ⟨false, [("a", false), ("b", false)], false⟩ ∧
    handleNetworkEvent false ["a", "b"] true =
      ⟨true, [("a", true), ("b", true)], true⟩ ∧
    handleNetworkEvent true ["a", "b"] true = ⟨true, [], false⟩ :=
  ⟨(network_monitor_transitions true false ["a", "b"]).2.1,
   by rw [(network_monitor_transitions true false ["a", "b"]).2.2.1
       (by decide)]; rfl,
   by rw [(network_monitor_transitions false true ["a", "b"]).2.2.1
       (by decide)]; rfl,
   (network_monitor_transitions true true ["a", "b"]).2.2.2 rfl⟩

end ByteForth
